import Mathlib

/-!
Shallow embedding of `itur/models/itu1814.py` (ITU-R P.1814 free-space-optical
link formulas) and verification of its stated properties.

Numbers are modelled as real numbers.  Python exceptions are modelled with an
`Except` monad whose error type records the Python exception class and message
raised by the source.  Astropy unit tags are modelled symbolically as integer
exponent vectors over the base units appearing in the module; multiplying a
quantity by a unit adds the exponent vectors.
-/

namespace ITU1814

open Real

/-- Python exceptions raised (directly or by the arithmetic) in the module,
with the exception class and message. -/
inductive PyError : Type
  | valueError (msg : String)
  | zeroDivisionError (msg : String)
  | typeError (msg : String)
deriving DecidableEq

/-- Message of the `ValueError` raised for a DSD shape parameter outside the
coefficient tables. -/
def muMsg : String := "DSD shape parameter (μ) must be an integer between -2 and 2."

/-- Message of the `ValueError` raised for a negative rain rate. -/
def rainMsg : String := "Rain rate (R) must be non-negative."

/-- Message of the `ZeroDivisionError` raised explicitly for a non-positive
capture diameter. -/
def captureMsg : String := "Capture diameter must be greater than zero."

/-- Spec taxonomy (section 7): InvalidParameter is the error signalled for a
shape parameter μ outside the set of table keys. -/
def specInvalidParameter (e : PyError) : Prop :=
  e = .valueError muMsg

/-- Spec taxonomy (section 7): InvalidInput is the error signalled for an
out-of-domain numeric input (negative rain rate, non-positive aperture
diameter). -/
def specInvalidInput (e : PyError) : Prop :=
  e = .valueError rainMsg ∨ e = .zeroDivisionError captureMsg

/-- Spec taxonomy (section 7): InvalidConfiguration is the error signalled for
an unsupported recommendation version. -/
def specInvalidConfiguration (e : PyError) : Prop :=
  ∃ v : ℤ, e = .valueError
    ("Version " ++ toString v ++ " is not implemented for the ITU-R P.1814 model.")

/-- Astropy unit tags, modelled as integer exponents over the base units the
module uses (`u.dB`, `u.km`, `u.mm`, `u.hour`, `u.meter`, `u.milliradian`). -/
structure PhysUnit : Type where
  dB : ℤ
  km : ℤ
  mm : ℤ
  hour : ℤ
  meter : ℤ
  mrad : ℤ
deriving DecidableEq

/-- Unit product: exponent vectors add (astropy composes units by
multiplication). -/
def PhysUnit.mul (a b : PhysUnit) : PhysUnit :=
  ⟨a.dB + b.dB, a.km + b.km, a.mm + b.mm, a.hour + b.hour,
   a.meter + b.meter, a.mrad + b.mrad⟩

/-- The decibel unit tag `u.dB`. -/
def udB : PhysUnit := ⟨1, 0, 0, 0, 0, 0⟩

/-- The `u.dB / u.km` unit tag attached by the module-level specific-rain
function. -/
def udBPerKm : PhysUnit := ⟨1, -1, 0, 0, 0, 0⟩

/-- A numeric value tagged with a physical unit (astropy `Quantity`). -/
structure Quantity : Type where
  val : ℝ
  unit : PhysUnit

/-- Python float division `x / y`: raises `ZeroDivisionError` on a zero
denominator, otherwise exact real division. -/
noncomputable def pyDiv (x y : ℝ) : Except PyError ℝ :=
  if y = 0 then .error (.zeroDivisionError "float division by zero")
  else .ok (x / y)

open Classical in
/-- Python float power `x ** y`.  For `x = 0` and `y < 0` CPython raises
`ZeroDivisionError`; for `x < 0` and non-integer `y` it returns a complex
number, which makes the caller's subsequent order comparison raise
`TypeError` — surfaced here as an error at the power site.  In every case in
which CPython produces a real number the value agrees with `Real.rpow`. -/
noncomputable def pyPow (x y : ℝ) : Except PyError ℝ :=
  if x = 0 ∧ y < 0 then
    .error (.zeroDivisionError "0.0 cannot be raised to a negative power")
  else if x < 0 ∧ ∀ n : ℤ, y ≠ (n : ℝ) then
    .error (.typeError "complex power result is not order-comparable")
  else .ok (x ^ y)

/-- Python `int()` applied to a float: truncation toward zero. -/
noncomputable def pyInt (x : ℝ) : ℤ :=
  if 0 ≤ x then ⌊x⌋ else ⌈x⌉

/-- The power-law coefficient table of `specific_attenuation_due_to_rain`:
μ ↦ (k, α), defined for μ ∈ {-2, -1, 0, 1, 2} only. -/
def rainCoeff (mu : ℤ) : Option (ℝ × ℝ) :=
  if mu = -2 then some (2.2838, 0.4050)
  else if mu = -1 then some (1.5921, 0.5506)
  else if mu = 0 then some (1.2924, 0.6436)
  else if mu = 1 then some (1.1394, 0.7057)
  else if mu = 2 then some (1.0505, 0.7497)
  else none

/-- The log-polynomial coefficient table of `path_attentuation_due_to_rain`:
μ ↦ (p0, p1, p2, k0, k1, k2), defined for μ ∈ {-2, -1, 0, 1, 2} only. -/
def pathCoeff (mu : ℤ) : Option (ℝ × ℝ × ℝ × ℝ × ℝ × ℝ) :=
  if mu = -2 then some (0.010012, 0.025381, -0.001606, 0.250329, -0.035278, 0.008349)
  else if mu = -1 then some (0.014551, 0.010932, 0.001532, 0.279336, 0.023974, 0.004421)
  else if mu = 0 then some (0.015940, -0.001476, 0.008297, 0.117663, 0.029602, 0.002142)
  else if mu = 1 then some (0.023468, 0.002897, 0.008912, 0.090689, 0.034955, 0.004583)
  else if mu = 2 then some (-0.000316, 0.062233, -0.007835, 0.192092, -0.081869, 0.033669)
  else none

/-- `_ITU1814_1_.specific_attenuation_due_to_rain(rain_rate, dsd_shape_param)`:
validates μ against the power-law table, then the sign of the rain rate, then
returns `k * rain_rate ** alpha` (a bare float, dB/km by convention). -/
noncomputable def specific_attenuation_due_to_rain (rain_rate : ℝ) (dsd_shape_param : ℤ) :
    Except PyError ℝ :=
  match rainCoeff dsd_shape_param with
  | none => .error (.valueError muMsg)
  | some (k, alpha) =>
    if rain_rate < 0 then .error (.valueError rainMsg)
    else .ok (k * rain_rate ^ alpha)

/-- `_ITU1814_1_.calculate_geometrical_attenuation(D, L, theta)`: raises an
explicit `ZeroDivisionError` for `D <= 0`; otherwise compares the capture area
`(pi/4) * D**2` with the beam area `(pi/4) * (L*theta)**2` and returns `0 dB`
when the capture area is at least the beam area, else
`10 * log10(beam / capture) dB`. -/
noncomputable def calculate_geometrical_attenuation
    (capture_surface_diameter_m Tx_Rx_distance_km beam_divergence_mrad : ℝ) :
    Except PyError Quantity :=
  if capture_surface_diameter_m ≤ 0 then
    .error (.zeroDivisionError captureMsg)
  else
    let capture_surface_m := (π / 4) * capture_surface_diameter_m ^ 2
    let s_d := (π / 4) * (Tx_Rx_distance_km * beam_divergence_mrad) ^ 2
    if capture_surface_m ≥ s_d then .ok ⟨0, udB⟩
    else .ok ⟨10 * Real.logb 10 (s_d / capture_surface_m), udB⟩

/-- `_ITU1814_1_.path_attentuation_due_to_rain(rain_rate, mu, path_length)`:
calls the specific-attenuation formula, computes the path-averaging factor
`F = 1 / (1 + path_length * (rain_rate - 6.2) / 2623)` (Python division, which
raises on a zero denominator), re-validates μ and the rain-rate sign against
the second table, returns `0 dB` for `rain_rate <= 0`, and otherwise returns
`gamma * L * F - a(R) * L ** b(R)` clamped below at `0 dB`. -/
noncomputable def path_attentuation_due_to_rain
    (rain_rate : ℝ) (dsd_shape_param : ℤ) (path_length : ℝ) :
    Except PyError Quantity := do
  let gamma_rain ← specific_attenuation_due_to_rain rain_rate dsd_shape_param
  let F_rain ← pyDiv 1 (1 + path_length * (rain_rate - 6.2) / 2623)
  match pathCoeff dsd_shape_param with
  | none => .error (.valueError muMsg)
  | some (p0, p1, p2, k0, k1, k2) =>
    if rain_rate < 0 then .error (.valueError rainMsg)
    else if rain_rate ≤ 0 then .ok ⟨0, udB⟩
    else do
      let path_attenuation_rain_star := gamma_rain * path_length * F_rain
      let a_ms := p0 + p1 * Real.log rain_rate + p2 * (Real.log rain_rate) ^ 2
      let b_ms := k0 + k1 * Real.log rain_rate + k2 * (Real.log rain_rate) ^ 2
      let powL ← pyPow path_length b_ms
      let G_ms := a_ms * powL
      let path_attenuation_rain := path_attenuation_rain_star - G_ms
      if path_attenuation_rain ≤ 0 then .ok ⟨0, udB⟩
      else .ok ⟨path_attenuation_rain, udB⟩

/-- The metadata carried by `_ITU1814_1_`, the only implemented version of the
recommendation; constructing it is what `__ITU1814__.__init__` does for
`version == 1`. -/
structure ITU1814Model : Type where
  version : ℤ
  year : ℤ
  month : ℤ
  link : String
deriving DecidableEq

/-- `__ITU1814__.__init__(version)`: builds the version-1 instance, or raises
`ValueError` for any other version number. -/
def mkITU1814 (version : ℤ) : Except PyError ITU1814Model :=
  if version = 1 then
    .ok ⟨1, 2025, 9, "https://www.itu.int/rec/R-REC-P.1814-1-202509-I/en"⟩
  else
    .error (.valueError
      ("Version " ++ toString version ++ " is not implemented for the ITU-R P.1814 model."))

/-- `change_version(new_version)`: evaluates `__ITU1814__(new_version)` and
assigns the result to the module global `__model`.  If the constructor raises,
the assignment never happens and the previous instance stays active.  The
result is the global state after the call, paired with the exception raised,
if any. -/
def change_version (new_version : ℤ) (model : ITU1814Model) :
    ITU1814Model × Option PyError :=
  match mkITU1814 new_version with
  | .ok m => (m, none)
  | .error e => (model, some e)

/-- `get_version()`: the version tag of the active instance. -/
def get_version (model : ITU1814Model) : ℤ := model.version

/-- The dB value returned by `calculate_geometrical_attenuation`, read off the
successful result (0 on the error branch; the monotonicity statements only use
it at inputs where the call succeeds). -/
noncomputable def geoVal (D L th : ℝ) : ℝ :=
  match calculate_geometrical_attenuation D L th with
  | .ok q => q.val
  | .error _ => 0

namespace Module

/-- Modelled from the spec: `itur.utils.prepare_quantity` is imported from
`itur/utils.py`, which is not under `src/`.  Per the spec (section 6), callers
may pass bare numbers in the documented canonical unit and the wrapper coerces
them by attaching the canonical unit, never changing the numeric value.  The
module-level inputs are modelled as such bare numbers in canonical units, so
the coercion leaves the numeric value unchanged. -/
def prepare_quantity (value : ℝ) : ℝ := value

/-- Module-level `calculate_geometrical_attenuation`: normalizes the three
inputs and forwards to the active instance. -/
noncomputable def calculate_geometrical_attenuation (D L th : ℝ) :
    Except PyError Quantity :=
  ITU1814.calculate_geometrical_attenuation
    (prepare_quantity D) (prepare_quantity L) (prepare_quantity th)

/-- Module-level `specific_attenuation_due_to_rain`: normalizes the rain rate,
coerces μ with `int()`, forwards, and attaches `u.dB / u.km` to the bare float
returned by the instance method. -/
noncomputable def specific_attenuation_due_to_rain (rain_rate dsd_shape_param : ℝ) :
    Except PyError Quantity := do
  let gamma_rain ← ITU1814.specific_attenuation_due_to_rain
    (prepare_quantity rain_rate) (pyInt dsd_shape_param)
  return ⟨gamma_rain, udBPerKm⟩

/-- Module-level `path_attentuation_due_to_rain`: normalizes the rain rate,
coerces μ with `int()`, attaches `u.km` to the path length (stripped back to
its value inside the instance method), forwards, and multiplies the returned
quantity — which already carries `u.dB` — by `u.dB` once more. -/
noncomputable def path_attentuation_due_to_rain
    (rain_rate dsd_shape_param path_length : ℝ) : Except PyError Quantity := do
  let q ← ITU1814.path_attentuation_due_to_rain
    (prepare_quantity rain_rate) (pyInt dsd_shape_param) path_length
  return ⟨q.val, PhysUnit.mul q.unit udB⟩

end Module

/-! ### Helper lemmas -/

lemma rainCoeff_of_notmem (mu : ℤ) (h : mu ∉ ({-2, -1, 0, 1, 2} : Set ℤ)) :
    rainCoeff mu = none := by
  simp only [Set.mem_insert_iff, Set.mem_singleton_iff] at h
  push_neg at h
  obtain ⟨h1, h2, h3, h4, h5⟩ := h
  simp [rainCoeff, h1, h2, h3, h4, h5]

lemma rainCoeff_of_mem (mu : ℤ) (h : mu ∈ ({-2, -1, 0, 1, 2} : Set ℤ)) :
    ∃ k alpha : ℝ, rainCoeff mu = some (k, alpha) := by
  simp only [Set.mem_insert_iff, Set.mem_singleton_iff] at h
  rcases h with rfl | rfl | rfl | rfl | rfl <;> exact ⟨_, _, rfl⟩

lemma pathCoeff_of_mem (mu : ℤ) (h : mu ∈ ({-2, -1, 0, 1, 2} : Set ℤ)) :
    ∃ p0 p1 p2 k0 k1 k2 : ℝ, pathCoeff mu = some (p0, p1, p2, k0, k1, k2) := by
  simp only [Set.mem_insert_iff, Set.mem_singleton_iff] at h
  rcases h with rfl | rfl | rfl | rfl | rfl <;>
    exact ⟨_, _, _, _, _, _, rfl⟩

lemma specific_ok (mu : ℤ) (k alpha : ℝ) (hk : rainCoeff mu = some (k, alpha))
    (R : ℝ) (hR : 0 ≤ R) :
    specific_attenuation_due_to_rain R mu = .ok (k * R ^ alpha) := by
  simp [specific_attenuation_due_to_rain, hk, not_lt.mpr hR]

lemma specific_err_param (R : ℝ) (mu : ℤ) (h : rainCoeff mu = none) :
    specific_attenuation_due_to_rain R mu = .error (.valueError muMsg) := by
  simp [specific_attenuation_due_to_rain, h]

lemma specific_err_rain (R : ℝ) (mu : ℤ) (k alpha : ℝ)
    (hk : rainCoeff mu = some (k, alpha)) (hR : R < 0) :
    specific_attenuation_due_to_rain R mu = .error (.valueError rainMsg) := by
  simp [specific_attenuation_due_to_rain, hk, hR]

lemma path_err_of_spec_err (R : ℝ) (mu : ℤ) (L : ℝ) (e : PyError)
    (h : specific_attenuation_due_to_rain R mu = .error e) :
    path_attentuation_due_to_rain R mu L = .error e := by
  simp only [path_attentuation_due_to_rain, h]
  rfl

/-! ### Claims -/

/-- C1: for every shape parameter μ in {-2, -1, 0, 1, 2} and every rain rate
R ≥ 0, the specific attenuation due to rain equals k[μ] * R ^ α[μ] with the
five table rows exactly as claimed, and at R = 0 the result is exactly 0. -/
theorem C1_specific_rain_power_law (R : ℝ) (hR : 0 ≤ R) :
    specific_attenuation_due_to_rain R (-2) = .ok (2.2838 * R ^ (0.4050 : ℝ)) ∧
    specific_attenuation_due_to_rain R (-1) = .ok (1.5921 * R ^ (0.5506 : ℝ)) ∧
    specific_attenuation_due_to_rain R 0 = .ok (1.2924 * R ^ (0.6436 : ℝ)) ∧
    specific_attenuation_due_to_rain R 1 = .ok (1.1394 * R ^ (0.7057 : ℝ)) ∧
    specific_attenuation_due_to_rain R 2 = .ok (1.0505 * R ^ (0.7497 : ℝ)) ∧
    (∀ mu : ℤ, mu ∈ ({-2, -1, 0, 1, 2} : Set ℤ) →
      specific_attenuation_due_to_rain 0 mu = .ok 0) := by
  refine ⟨specific_ok (-2) 2.2838 0.4050 (by norm_num [rainCoeff]) R hR,
          specific_ok (-1) 1.5921 0.5506 (by norm_num [rainCoeff]) R hR,
          specific_ok 0 1.2924 0.6436 rfl R hR,
          specific_ok 1 1.1394 0.7057 rfl R hR,
          specific_ok 2 1.0505 0.7497 rfl R hR, ?_⟩
  intro mu hmu
  simp only [Set.mem_insert_iff, Set.mem_singleton_iff] at hmu
  rcases hmu with rfl | rfl | rfl | rfl | rfl
  · rw [specific_ok (-2) 2.2838 0.4050 (by norm_num [rainCoeff]) 0 le_rfl, Real.zero_rpow (by norm_num), mul_zero]
  · rw [specific_ok (-1) 1.5921 0.5506 (by norm_num [rainCoeff]) 0 le_rfl, Real.zero_rpow (by norm_num), mul_zero]
  · rw [specific_ok 0 1.2924 0.6436 rfl 0 le_rfl, Real.zero_rpow (by norm_num), mul_zero]
  · rw [specific_ok 1 1.1394 0.7057 rfl 0 le_rfl, Real.zero_rpow (by norm_num), mul_zero]
  · rw [specific_ok 2 1.0505 0.7497 rfl 0 le_rfl, Real.zero_rpow (by norm_num), mul_zero]

/-- Witness for C1 at μ = -2, R = 3 and at R = 0, μ = 0. -/
theorem C1_witness :
    specific_attenuation_due_to_rain 3 (-2) = .ok (2.2838 * (3 : ℝ) ^ (0.4050 : ℝ)) ∧
    specific_attenuation_due_to_rain 0 0 = .ok 0 :=
  ⟨(C1_specific_rain_power_law 3 (by norm_num)).1,
   (C1_specific_rain_power_law 0 le_rfl).2.2.2.2.2 0 (by norm_num)⟩

/-- C3: for a positive capture diameter, the geometrical attenuation is
exactly 0 dB when the capture area (π/4)·D² is at least the beam footprint
area (π/4)·(L·θ)², and 10·log10(footprint / capture) dB otherwise. -/
theorem C3_geometrical_attenuation_formula (D L th : ℝ) (hD : 0 < D) :
    ((π / 4) * (L * th) ^ 2 ≤ (π / 4) * D ^ 2 →
      calculate_geometrical_attenuation D L th = .ok ⟨0, udB⟩) ∧
    ((π / 4) * D ^ 2 < (π / 4) * (L * th) ^ 2 →
      calculate_geometrical_attenuation D L th =
        .ok ⟨10 * Real.logb 10 (((π / 4) * (L * th) ^ 2) / ((π / 4) * D ^ 2)), udB⟩) := by
  have hD' : ¬ D ≤ 0 := not_le.mpr hD
  constructor
  · intro h
    simp [calculate_geometrical_attenuation, hD', h]
  · intro h
    simp [calculate_geometrical_attenuation, hD', not_le.mpr h]

/-- Witness for C3: both branches at concrete inputs (D = 3, L = 1, θ = 1 and
D = 1, L = 2, θ = 1). -/
theorem C3_witness :
    calculate_geometrical_attenuation 3 1 1 = .ok ⟨0, udB⟩ ∧
    calculate_geometrical_attenuation 1 2 1 =
      .ok ⟨10 * Real.logb 10 (((π / 4) * ((2 : ℝ) * 1) ^ 2) / ((π / 4) * (1 : ℝ) ^ 2)), udB⟩ :=
  ⟨(C3_geometrical_attenuation_formula 3 1 1 (by norm_num)).1
      (by nlinarith [Real.pi_pos]),
   (C3_geometrical_attenuation_formula 1 2 1 (by norm_num)).2
      (by nlinarith [Real.pi_pos])⟩

/-- C4: for μ outside {-2, -1, 0, 1, 2} both rain formulas fail with the
invalid-parameter error, and for valid μ with R < 0 both fail with the
invalid-input error; in neither case is a value returned. -/
theorem C4_rain_validation :
    (∀ mu : ℤ, mu ∉ ({-2, -1, 0, 1, 2} : Set ℤ) → ∀ R L : ℝ,
      specific_attenuation_due_to_rain R mu = .error (.valueError muMsg) ∧
      path_attentuation_due_to_rain R mu L = .error (.valueError muMsg) ∧
      specInvalidParameter (.valueError muMsg)) ∧
    (∀ mu : ℤ, mu ∈ ({-2, -1, 0, 1, 2} : Set ℤ) → ∀ R L : ℝ, R < 0 →
      specific_attenuation_due_to_rain R mu = .error (.valueError rainMsg) ∧
      path_attentuation_due_to_rain R mu L = .error (.valueError rainMsg) ∧
      specInvalidInput (.valueError rainMsg)) := by
  constructor
  · intro mu hmu R L
    have hs := specific_err_param R mu (rainCoeff_of_notmem mu hmu)
    exact ⟨hs, path_err_of_spec_err R mu L _ hs, rfl⟩
  · intro mu hmu R L hR
    obtain ⟨k, alpha, hk⟩ := rainCoeff_of_mem mu hmu
    have hs := specific_err_rain R mu k alpha hk hR
    exact ⟨hs, path_err_of_spec_err R mu L _ hs, Or.inl rfl⟩

/-- Witness for C4 at μ = 3 (invalid parameter) and μ = 0, R = -5 (invalid
input). -/
theorem C4_witness :
    (specific_attenuation_due_to_rain 10 3 = .error (.valueError muMsg) ∧
     path_attentuation_due_to_rain 10 3 1 = .error (.valueError muMsg) ∧
     specInvalidParameter (.valueError muMsg)) ∧
    (specific_attenuation_due_to_rain (-5) 0 = .error (.valueError rainMsg) ∧
     path_attentuation_due_to_rain (-5) 0 1 = .error (.valueError rainMsg) ∧
     specInvalidInput (.valueError rainMsg)) :=
  ⟨C4_rain_validation.1 3 (by norm_num) 10 1,
   C4_rain_validation.2 0 (by norm_num) (-5) 1 (by norm_num)⟩

/-- C5: for every non-positive capture diameter the geometrical-attenuation
formula raises explicitly (the spec's invalid-input error) and returns no
value. -/
theorem C5_nonpositive_capture_diameter (D : ℝ) (hD : D ≤ 0) (L th : ℝ) :
    calculate_geometrical_attenuation D L th = .error (.zeroDivisionError captureMsg) ∧
    specInvalidInput (.zeroDivisionError captureMsg) :=
  ⟨by simp [calculate_geometrical_attenuation, hD], Or.inr rfl⟩

/-- Witness for C5 at D = 0, L = 1, θ = 1. -/
theorem C5_witness :
    calculate_geometrical_attenuation 0 1 1 = .error (.zeroDivisionError captureMsg) ∧
    specInvalidInput (.zeroDivisionError captureMsg) :=
  C5_nonpositive_capture_diameter 0 le_rfl 1 1

lemma geo_closed (D L th : ℝ) :
    calculate_geometrical_attenuation D L th =
      if D ≤ 0 then .error (.zeroDivisionError captureMsg)
      else if (π / 4) * D ^ 2 ≥ (π / 4) * (L * th) ^ 2 then .ok ⟨0, udB⟩
      else .ok ⟨10 * Real.logb 10 (((π / 4) * (L * th) ^ 2) / ((π / 4) * D ^ 2)), udB⟩ :=
  rfl

lemma geoVal_zero_branch (D L th : ℝ) (hD : 0 < D)
    (h : (π / 4) * (L * th) ^ 2 ≤ (π / 4) * D ^ 2) : geoVal D L th = 0 := by
  simp [geoVal, geo_closed, not_le.mpr hD, h]

lemma geoVal_log_branch (D L th : ℝ) (hD : 0 < D)
    (h : (π / 4) * D ^ 2 < (π / 4) * (L * th) ^ 2) :
    geoVal D L th = 10 * Real.logb 10 (((π / 4) * (L * th) ^ 2) / ((π / 4) * D ^ 2)) := by
  simp [geoVal, geo_closed, not_le.mpr hD, not_le.mpr h]

lemma geoVal_strict (D L1 th1 L2 th2 : ℝ) (hD : 0 < D) (hx : 0 < L1 * th1)
    (hxy : L1 * th1 < L2 * th2) (hcap : (π / 4) * D ^ 2 < (π / 4) * (L1 * th1) ^ 2) :
    geoVal D L1 th1 < geoVal D L2 th2 := by
  have hsq : (L1 * th1) ^ 2 < (L2 * th2) ^ 2 := by nlinarith
  have hcap2 : (π / 4) * D ^ 2 < (π / 4) * (L2 * th2) ^ 2 := by
    nlinarith [Real.pi_pos]
  rw [geoVal_log_branch D L1 th1 hD hcap, geoVal_log_branch D L2 th2 hD hcap2]
  have hDpos : 0 < (π / 4) * D ^ 2 := by positivity
  have hr1 : (0 : ℝ) < (π / 4) * (L1 * th1) ^ 2 / ((π / 4) * D ^ 2) :=
    div_pos (lt_trans hDpos hcap) hDpos
  have hr : (π / 4) * (L1 * th1) ^ 2 / ((π / 4) * D ^ 2) <
      (π / 4) * (L2 * th2) ^ 2 / ((π / 4) * D ^ 2) :=
    (div_lt_div_iff_of_pos_right hDpos).mpr (by nlinarith [Real.pi_pos])
  have := Real.logb_lt_logb (by norm_num : (1 : ℝ) < 10) hr1 hr
  linarith

lemma geoVal_mono (D L1 th1 L2 th2 : ℝ) (hD : 0 < D) (hx : 0 < L1 * th1)
    (hxy : L1 * th1 ≤ L2 * th2) : geoVal D L1 th1 ≤ geoVal D L2 th2 := by
  rcases lt_or_le ((π / 4) * D ^ 2) ((π / 4) * (L1 * th1) ^ 2) with hc | hc
  · rcases eq_or_lt_of_le hxy with heq | hlt
    · rw [geoVal_log_branch D L1 th1 hD hc,
          geoVal_log_branch D L2 th2 hD (by rw [← heq]; exact hc), heq]
    · exact le_of_lt (geoVal_strict D L1 th1 L2 th2 hD hx hlt hc)
  · rw [geoVal_zero_branch D L1 th1 hD hc]
    rcases lt_or_le ((π / 4) * D ^ 2) ((π / 4) * (L2 * th2) ^ 2) with hc2 | hc2
    · rw [geoVal_log_branch D L2 th2 hD hc2]
      have hDpos : 0 < (π / 4) * D ^ 2 := by positivity
      have h1 : 1 ≤ (π / 4) * (L2 * th2) ^ 2 / ((π / 4) * D ^ 2) :=
        (one_le_div hDpos).mpr hc2.le
      have := Real.logb_nonneg (by norm_num : (1 : ℝ) < 10) h1
      linarith
    · rw [geoVal_zero_branch D L2 th2 hD hc2]

/-- C10: the geometrical attenuation depends on the distance and divergence
only through the square of their product: for a positive capture diameter the
result is unchanged when the distance is negated or the two arguments are
swapped, and a zero distance or zero divergence raises no error and returns
exactly 0 dB. -/
theorem C10_geo_product_symmetry (D L th : ℝ) (hD : 0 < D) :
    calculate_geometrical_attenuation D L th = calculate_geometrical_attenuation D (-L) th ∧
    calculate_geometrical_attenuation D L th = calculate_geometrical_attenuation D th L ∧
    calculate_geometrical_attenuation D 0 th = .ok ⟨0, udB⟩ ∧
    calculate_geometrical_attenuation D L 0 = .ok ⟨0, udB⟩ := by
  have hD' : ¬ D ≤ 0 := not_le.mpr hD
  have h1 : (-L * th) ^ 2 = (L * th) ^ 2 := by ring
  have h2 : (th * L) ^ 2 = (L * th) ^ 2 := by ring
  refine ⟨by rw [geo_closed, geo_closed, h1], by rw [geo_closed, geo_closed, h2], ?_, ?_⟩
  · rw [geo_closed, if_neg hD', if_pos (by nlinarith [Real.pi_pos, sq_nonneg D])]
  · rw [geo_closed, if_neg hD', if_pos (by nlinarith [Real.pi_pos, sq_nonneg D])]

/-- Witness for C10 at D = 1, L = 2, θ = 3. -/
theorem C10_witness :
    calculate_geometrical_attenuation 1 2 3 = calculate_geometrical_attenuation 1 (-2) 3 ∧
    calculate_geometrical_attenuation 1 2 3 = calculate_geometrical_attenuation 1 3 2 ∧
    calculate_geometrical_attenuation 1 0 3 = .ok ⟨0, udB⟩ ∧
    calculate_geometrical_attenuation 1 2 0 = .ok ⟨0, udB⟩ :=
  C10_geo_product_symmetry 1 2 3 one_pos

/-- C9: for fixed positive capture diameter the geometrical attenuation is
strictly increasing in the distance and in the divergence (both positive) on
inputs where the capture area is strictly below the beam footprint area, and
monotonically non-decreasing in each of the two arguments on positive
inputs. -/
theorem C9_geo_monotone :
    (∀ D th L1 L2 : ℝ, 0 < D → 0 < th → 0 < L1 → L1 < L2 →
      (π / 4) * D ^ 2 < (π / 4) * (L1 * th) ^ 2 →
      geoVal D L1 th < geoVal D L2 th) ∧
    (∀ D L th1 th2 : ℝ, 0 < D → 0 < L → 0 < th1 → th1 < th2 →
      (π / 4) * D ^ 2 < (π / 4) * (L * th1) ^ 2 →
      geoVal D L th1 < geoVal D L th2) ∧
    (∀ D th L1 L2 : ℝ, 0 < D → 0 < th → 0 < L1 → L1 ≤ L2 →
      geoVal D L1 th ≤ geoVal D L2 th) ∧
    (∀ D L th1 th2 : ℝ, 0 < D → 0 < L → 0 < th1 → th1 ≤ th2 →
      geoVal D L th1 ≤ geoVal D L th2) := by
  refine ⟨?_, ?_, ?_, ?_⟩
  · intro D th L1 L2 hD hth h1 h12 hcap
    exact geoVal_strict D L1 th L2 th hD (mul_pos h1 hth)
      (mul_lt_mul_of_pos_right h12 hth) hcap
  · intro D L th1 th2 hD hL h1 h12 hcap
    exact geoVal_strict D L th1 L th2 hD (mul_pos hL h1)
      (mul_lt_mul_of_pos_left h12 hL) hcap
  · intro D th L1 L2 hD hth h1 h12
    exact geoVal_mono D L1 th L2 th hD (mul_pos h1 hth)
      (mul_le_mul_of_nonneg_right h12 hth.le)
  · intro D L th1 th2 hD hL h1 h12
    exact geoVal_mono D L th1 L th2 hD (mul_pos hL h1)
      (mul_le_mul_of_nonneg_left h12 hL.le)

/-- Witness for C9 at D = 1, θ = 2, distances 1 < 2 (strict parts) and the
same inputs for the non-decreasing parts. -/
theorem C9_witness :
    geoVal 1 1 2 < geoVal 1 2 2 ∧ geoVal 1 1 2 < geoVal 1 1 3 ∧
    geoVal 1 1 2 ≤ geoVal 1 2 2 ∧ geoVal 1 1 2 ≤ geoVal 1 1 3 :=
  ⟨C9_geo_monotone.1 1 2 1 2 one_pos two_pos one_pos one_lt_two
      (by nlinarith [Real.pi_pos]),
   C9_geo_monotone.2.1 1 1 2 3 one_pos one_pos two_pos (by norm_num)
      (by nlinarith [Real.pi_pos]),
   C9_geo_monotone.2.2.1 1 2 1 2 one_pos two_pos one_pos one_le_two,
   C9_geo_monotone.2.2.2 1 1 2 3 one_pos one_pos two_pos (by norm_num)⟩

/-- C7: requesting an unsupported version raises the invalid-configuration
error and leaves the previously active instance in place, so a subsequent
get_version (and every formula dispatched through the instance) is exactly as
before the failed call. -/
theorem C7_change_version_all_or_nothing (v : ℤ) (hv : v ≠ 1) (s : ITU1814Model) :
    (change_version v s).1 = s ∧
    (change_version v s).2 = some (.valueError
      ("Version " ++ toString v ++ " is not implemented for the ITU-R P.1814 model.")) ∧
    (∃ e, (change_version v s).2 = some e ∧ specInvalidConfiguration e) ∧
    get_version (change_version v s).1 = get_version s := by
  have h : change_version v s = (s, some (.valueError
      ("Version " ++ toString v ++ " is not implemented for the ITU-R P.1814 model."))) := by
    simp [change_version, mkITU1814, hv]
  rw [h]
  exact ⟨rfl, rfl, ⟨_, rfl, ⟨v, rfl⟩⟩, rfl⟩

/-- Witness for C7 at version 2 with the version-1 instance active. -/
theorem C7_witness :
    (change_version 2 ⟨1, 2025, 9, "https://www.itu.int/rec/R-REC-P.1814-1-202509-I/en"⟩).1 =
      ⟨1, 2025, 9, "https://www.itu.int/rec/R-REC-P.1814-1-202509-I/en"⟩ ∧
    (change_version 2 ⟨1, 2025, 9, "https://www.itu.int/rec/R-REC-P.1814-1-202509-I/en"⟩).2 =
      some (.valueError
        ("Version " ++ toString (2 : ℤ) ++ " is not implemented for the ITU-R P.1814 model.")) ∧
    (∃ e, (change_version 2
        ⟨1, 2025, 9, "https://www.itu.int/rec/R-REC-P.1814-1-202509-I/en"⟩).2 = some e ∧
      specInvalidConfiguration e) ∧
    get_version (change_version 2
        ⟨1, 2025, 9, "https://www.itu.int/rec/R-REC-P.1814-1-202509-I/en"⟩).1 =
      get_version ⟨1, 2025, 9, "https://www.itu.int/rec/R-REC-P.1814-1-202509-I/en"⟩ :=
  C7_change_version_all_or_nothing 2 (by decide) _

lemma except_bind_ok {α β : Type} (a : α) (f : α → Except PyError β) :
    (Bind.bind (Except.ok a) f : Except PyError β) = f a := rfl

lemma except_bind_error {α β : Type} (e : PyError) (f : α → Except PyError β) :
    (Bind.bind (Except.error e) f : Except PyError β) = Except.error e := rfl

lemma path_ok (mu : ℤ) (k alpha p0 p1 p2 q0 q1 q2 R L : ℝ)
    (hk : rainCoeff mu = some (k, alpha))
    (hp : pathCoeff mu = some (p0, p1, p2, q0, q1, q2))
    (hR : 0 < R) (hL : 0 < L) (hden : 1 + L * (R - 6.2) / 2623 ≠ 0) :
    path_attentuation_due_to_rain R mu L =
      .ok ⟨(if k * R ^ alpha * L * (1 / (1 + L * (R - 6.2) / 2623)) -
            (p0 + p1 * Real.log R + p2 * Real.log R ^ 2) *
              L ^ (q0 + q1 * Real.log R + q2 * Real.log R ^ 2) ≤ 0 then 0
          else k * R ^ alpha * L * (1 / (1 + L * (R - 6.2) / 2623)) -
            (p0 + p1 * Real.log R + p2 * Real.log R ^ 2) *
              L ^ (q0 + q1 * Real.log R + q2 * Real.log R ^ 2)), udB⟩ := by
  have hR' : ¬ R < 0 := not_lt.mpr hR.le
  have hR'' : ¬ R ≤ 0 := not_le.mpr hR
  have hspec := specific_ok mu k alpha hk R hR.le
  have hpow : pyPow L (q0 + q1 * Real.log R + q2 * Real.log R ^ 2) =
      .ok (L ^ (q0 + q1 * Real.log R + q2 * Real.log R ^ 2)) := by
    rw [pyPow, if_neg, if_neg]
    · rintro ⟨h, -⟩
      exact absurd h (not_lt.mpr hL.le)
    · rintro ⟨h, -⟩
      exact absurd h (ne_of_gt hL)
  have hdiv : pyDiv 1 (1 + L * (R - 6.2) / 2623) =
      .ok (1 / (1 + L * (R - 6.2) / 2623)) := by
    rw [pyDiv, if_neg hden]
  simp only [path_attentuation_due_to_rain, hspec, except_bind_ok, hdiv, hp,
    hpow, if_neg hR', if_neg hR'']
  split <;> rfl

lemma path_rain_zero (mu : ℤ) (L : ℝ) (hmu : mu ∈ ({-2, -1, 0, 1, 2} : Set ℤ))
    (hden : 1 + L * ((0 : ℝ) - 6.2) / 2623 ≠ 0) :
    path_attentuation_due_to_rain 0 mu L = .ok ⟨0, udB⟩ := by
  obtain ⟨k, alpha, hk⟩ := rainCoeff_of_mem mu hmu
  obtain ⟨p0, p1, p2, q0, q1, q2, hp⟩ := pathCoeff_of_mem mu hmu
  have hspec := specific_ok mu k alpha hk 0 le_rfl
  have hdiv : pyDiv 1 (1 + L * ((0 : ℝ) - 6.2) / 2623) =
      .ok (1 / (1 + L * ((0 : ℝ) - 6.2) / 2623)) := by
    rw [pyDiv, if_neg hden]
  simp only [path_attentuation_due_to_rain, hspec, except_bind_ok, hdiv, hp,
    if_neg (lt_irrefl (0 : ℝ)), if_pos (le_refl (0 : ℝ))]

/-- C2 counterexample: at μ = 0, R = 5.2 mm/h, L = 2623 km — a shape parameter
in the table, a positive rain rate and a positive path length — the
path-averaging denominator 1 + L·(R − 6.2)/2623 is exactly 0 and the function
raises ZeroDivisionError instead of returning the claimed attenuation
value. -/
theorem C2_counterexample :
    path_attentuation_due_to_rain 5.2 0 2623 =
      .error (.zeroDivisionError "float division by zero") := by
  have hspec := specific_ok 0 1.2924 0.6436 rfl (5.2 : ℝ) (by norm_num)
  have hden : (1 : ℝ) + 2623 * ((5.2 : ℝ) - 6.2) / 2623 = 0 := by norm_num
  have hdiv : pyDiv 1 ((1 : ℝ) + 2623 * ((5.2 : ℝ) - 6.2) / 2623) =
      .error (.zeroDivisionError "float division by zero") := by
    rw [pyDiv, if_pos hden]
  simp only [path_attentuation_due_to_rain, hspec, except_bind_ok, hdiv,
    except_bind_error]

/-- C2 (amended): for μ in the table and R > 0, L > 0 with the path-averaging
denominator 1 + L·(R − 6.2)/2623 nonzero, the path attenuation is
γ_rain·L·F − a(R)·L^b(R) clamped below at exactly 0 dB, with F and the two
log-polynomials exactly as claimed; and for R = 0 (valid μ, denominator
nonzero) the result is exactly 0 dB.  At a zero denominator the call raises
ZeroDivisionError instead. -/
theorem C2_path_attenuation_amended :
    (∀ (mu : ℤ) (k alpha p0 p1 p2 q0 q1 q2 R L : ℝ),
      rainCoeff mu = some (k, alpha) →
      pathCoeff mu = some (p0, p1, p2, q0, q1, q2) →
      0 < R → 0 < L → 1 + L * (R - 6.2) / 2623 ≠ 0 →
      path_attentuation_due_to_rain R mu L =
        .ok ⟨(if k * R ^ alpha * L * (1 / (1 + L * (R - 6.2) / 2623)) -
              (p0 + p1 * Real.log R + p2 * Real.log R ^ 2) *
                L ^ (q0 + q1 * Real.log R + q2 * Real.log R ^ 2) ≤ 0 then 0
            else k * R ^ alpha * L * (1 / (1 + L * (R - 6.2) / 2623)) -
              (p0 + p1 * Real.log R + p2 * Real.log R ^ 2) *
                L ^ (q0 + q1 * Real.log R + q2 * Real.log R ^ 2)), udB⟩) ∧
    (∀ (mu : ℤ) (L : ℝ), mu ∈ ({-2, -1, 0, 1, 2} : Set ℤ) →
      1 + L * ((0 : ℝ) - 6.2) / 2623 ≠ 0 →
      path_attentuation_due_to_rain 0 mu L = .ok ⟨0, udB⟩) :=
  ⟨fun mu k alpha p0 p1 p2 q0 q1 q2 R L hk hp hR hL hden =>
     path_ok mu k alpha p0 p1 p2 q0 q1 q2 R L hk hp hR hL hden,
   fun mu L hmu hden => path_rain_zero mu L hmu hden⟩

/-- Witness for C2 (amended) at μ = 0, R = 3, L = 1 and at μ = 0, R = 0,
L = 1. -/
theorem C2_witness :
    path_attentuation_due_to_rain 3 0 1 =
      .ok ⟨(if (1.2924 : ℝ) * 3 ^ (0.6436 : ℝ) * 1 * (1 / (1 + 1 * ((3 : ℝ) - 6.2) / 2623)) -
            ((0.015940 : ℝ) + (-0.001476) * Real.log 3 + 0.008297 * Real.log 3 ^ 2) *
              (1 : ℝ) ^ ((0.117663 : ℝ) + 0.029602 * Real.log 3 + 0.002142 * Real.log 3 ^ 2) ≤ 0
          then 0
          else (1.2924 : ℝ) * 3 ^ (0.6436 : ℝ) * 1 * (1 / (1 + 1 * ((3 : ℝ) - 6.2) / 2623)) -
            ((0.015940 : ℝ) + (-0.001476) * Real.log 3 + 0.008297 * Real.log 3 ^ 2) *
              (1 : ℝ) ^ ((0.117663 : ℝ) + 0.029602 * Real.log 3 + 0.002142 * Real.log 3 ^ 2)), udB⟩ ∧
    path_attentuation_due_to_rain 0 0 1 = .ok ⟨0, udB⟩ :=
  ⟨C2_path_attenuation_amended.1 0 1.2924 0.6436 0.015940 (-0.001476) 0.008297
      0.117663 0.029602 0.002142 3 1 rfl rfl (by norm_num) (by norm_num) (by norm_num),
   C2_path_attenuation_amended.2 0 1 (by norm_num) (by norm_num)⟩

lemma pyInt_zero : pyInt (0 : ℝ) = 0 := by simp [pyInt]

lemma module_spec_cases (R mu : ℝ) :
    Module.specific_attenuation_due_to_rain R mu =
      (specific_attenuation_due_to_rain R (pyInt mu)).map
        (fun gamma_rain => ⟨gamma_rain, udBPerKm⟩) := by
  cases h : specific_attenuation_due_to_rain R (pyInt mu) <;>
    simp only [Module.specific_attenuation_due_to_rain, Module.prepare_quantity,
      h, except_bind_ok, except_bind_error, Except.map]
  rfl

lemma module_path_cases (R mu L : ℝ) :
    Module.path_attentuation_due_to_rain R mu L =
      (path_attentuation_due_to_rain R (pyInt mu) L).map
        (fun q => ⟨q.val, PhysUnit.mul q.unit udB⟩) := by
  cases h : path_attentuation_due_to_rain R (pyInt mu) L <;>
    simp only [Module.path_attentuation_due_to_rain, Module.prepare_quantity,
      h, except_bind_ok, except_bind_error, Except.map]
  rfl

/-- C6: on a valid input (R = 0 mm/h, μ = 0, L = 1 km) the module-level path
attenuation function returns a quantity tagged with dB·dB, not plain dB: it
multiplies the instance method's already-dB-tagged result by the decibel unit
a second time. -/
theorem C6_module_path_unit_bug :
    Module.path_attentuation_due_to_rain 0 0 1 = .ok ⟨0, PhysUnit.mul udB udB⟩ ∧
    PhysUnit.mul udB udB ≠ udB := by
  constructor
  · have hpath : path_attentuation_due_to_rain 0 0 1 = .ok ⟨0, udB⟩ :=
      path_rain_zero 0 1 (by norm_num) (by norm_num)
    rw [module_path_cases, pyInt_zero, hpath]
    rfl
  · decide

lemma exists_ok_map {α β : Type} (e : Except PyError α) (f : α → β) :
    (∃ b, e.map f = .ok b) ↔ (∃ a, e = .ok a) := by
  cases e <;> simp [Except.map]

lemma spec_ok_iff (R : ℝ) (mu : ℤ) (hR : 0 ≤ R) :
    (∃ y, specific_attenuation_due_to_rain R mu = .ok y) ↔
      mu ∈ ({-2, -1, 0, 1, 2} : Set ℤ) := by
  constructor
  · rintro ⟨y, hy⟩
    by_contra hmu
    rw [specific_err_param R mu (rainCoeff_of_notmem mu hmu)] at hy
    exact Except.noConfusion hy
  · intro hmu
    obtain ⟨k, alpha, hk⟩ := rainCoeff_of_mem mu hmu
    exact ⟨_, specific_ok mu k alpha hk R hR⟩

lemma path_ok_iff (R : ℝ) (mu : ℤ) (L : ℝ) (hR : 0 ≤ R) (hL : 0 < L)
    (hden : 1 + L * (R - 6.2) / 2623 ≠ 0) :
    (∃ q, path_attentuation_due_to_rain R mu L = .ok q) ↔
      mu ∈ ({-2, -1, 0, 1, 2} : Set ℤ) := by
  constructor
  · rintro ⟨q, hq⟩
    by_contra hmu
    have hs := specific_err_param R mu (rainCoeff_of_notmem mu hmu)
    rw [path_err_of_spec_err R mu L _ hs] at hq
    exact Except.noConfusion hq
  · intro hmu
    rcases eq_or_lt_of_le hR with heq | hRpos
    · subst heq
      exact ⟨_, path_rain_zero mu L hmu hden⟩
    · obtain ⟨k, alpha, hk⟩ := rainCoeff_of_mem mu hmu
      obtain ⟨p0, p1, p2, q0, q1, q2, hp⟩ := pathCoeff_of_mem mu hmu
      exact ⟨_, path_ok mu k alpha p0 p1 p2 q0 q1 q2 R L hk hp hRpos hL hden⟩

/-- C8: the module-level rain functions truncate μ toward zero with Python
int() before validation, so (given otherwise-valid numeric inputs) they
succeed exactly when the truncation lands in {-2, -1, 0, 1, 2}, and a
non-integer argument such as 2.9 is evaluated with the coefficients of its
truncated value 2. -/
theorem C8_module_mu_truncation :
    (∀ R mu : ℝ, 0 ≤ R →
      ((∃ q, Module.specific_attenuation_due_to_rain R mu = .ok q) ↔
        pyInt mu ∈ ({-2, -1, 0, 1, 2} : Set ℤ))) ∧
    (∀ R mu L : ℝ, 0 ≤ R → 0 < L → 1 + L * (R - 6.2) / 2623 ≠ 0 →
      ((∃ q, Module.path_attentuation_due_to_rain R mu L = .ok q) ↔
        pyInt mu ∈ ({-2, -1, 0, 1, 2} : Set ℤ))) ∧
    (∀ R : ℝ, Module.specific_attenuation_due_to_rain R 2.9 =
      Module.specific_attenuation_due_to_rain R 2) ∧
    (∀ R L : ℝ, Module.path_attentuation_due_to_rain R 2.9 L =
      Module.path_attentuation_due_to_rain R 2 L) := by
  have h29 : pyInt (2.9 : ℝ) = 2 := by
    rw [pyInt, if_pos (by norm_num : (0 : ℝ) ≤ 2.9), Int.floor_eq_iff]
    constructor <;> norm_num
  have h2 : pyInt (2 : ℝ) = 2 := by
    rw [pyInt, if_pos (by norm_num : (0 : ℝ) ≤ 2), Int.floor_eq_iff]
    constructor <;> norm_num
  refine ⟨?_, ?_, ?_, ?_⟩
  · intro R mu hR
    rw [module_spec_cases, exists_ok_map]
    exact spec_ok_iff R (pyInt mu) hR
  · intro R mu L hR hL hden
    rw [module_path_cases, exists_ok_map]
    exact path_ok_iff R (pyInt mu) L hR hL hden
  · intro R
    rw [module_spec_cases, module_spec_cases, h29, h2]
  · intro R L
    rw [module_path_cases, module_path_cases, h29, h2]

/-- Witness for C8 at R = 1, μ = 0 resp. μ = 2.9, L = 1. -/
theorem C8_witness :
    ((∃ q, Module.specific_attenuation_due_to_rain 1 0 = .ok q) ↔
      pyInt 0 ∈ ({-2, -1, 0, 1, 2} : Set ℤ)) ∧
    ((∃ q, Module.path_attentuation_due_to_rain 1 0 1 = .ok q) ↔
      pyInt 0 ∈ ({-2, -1, 0, 1, 2} : Set ℤ)) ∧
    Module.specific_attenuation_due_to_rain 1 2.9 =
      Module.specific_attenuation_due_to_rain 1 2 ∧
    Module.path_attentuation_due_to_rain 1 2.9 1 =
      Module.path_attentuation_due_to_rain 1 2 1 :=
  ⟨C8_module_mu_truncation.1 1 0 (by norm_num),
   C8_module_mu_truncation.2.1 1 0 1 (by norm_num) (by norm_num) (by norm_num),
   C8_module_mu_truncation.2.2.1 1,
   C8_module_mu_truncation.2.2.2 1 1⟩

end ITU1814
